import Mathlib

/-!
Verification of the timestamp-counter / timer subsystem of hodea-lib.

The development shallowly embeds the C++ sources:

* `src/hodea/core/tsc.hpp` (`Tsc`),
* `src/hodea/core/tsc_timer.hpp` (`Tsc_timer`),
* `src/hodea/core/countdown_timer.hpp` (`Countdown_timer`),
* `src/hodea/core/math.hpp` (`math_round_to`).

Tick values live in an unsigned storage type of `S` bits; they are modelled
as natural numbers reduced modulo `2 ^ S`.  The time base's `counter_msk`
and `counter_clk_hz`, and the readings delivered by `now()` respectively
`timestamp()`, are passed as explicit parameters.  The `double` arithmetic
of the compile-time unit conversions is modelled by exact rationals.
-/

/-- Unsigned wrap-around subtraction `a - b` as performed by C++ on an
unsigned integer type of `S` value bits: both operands are reduced to the
storage width and the difference is taken modulo `2 ^ S`. -/
def usub (S a b : Nat) : Nat :=
  (a % 2 ^ S + (2 ^ S - b % 2 ^ S)) % 2 ^ S

lemma two_pow_pos (n : Nat) : 0 < 2 ^ n := Nat.pow_pos (by norm_num)

lemma usub_lt (S a b : Nat) : usub S a b < 2 ^ S :=
  Nat.mod_lt _ (two_pow_pos S)

lemma usub_self (S a : Nat) : usub S a a = 0 := by
  unfold usub
  rw [Nat.add_sub_cancel' (Nat.le_of_lt (Nat.mod_lt a (two_pow_pos S)))]
  exact Nat.mod_self _

/-- Reducing the storage-width difference to a narrower counter width `W`
gives the difference computed directly at width `W`. -/
lemma usub_mod_pow {W S : Nat} (h : W ≤ S) (a b : Nat) :
    usub S a b % 2 ^ W = usub W a b := by
  have hdvd : (2 : Nat) ^ W ∣ 2 ^ S := pow_dvd_pow 2 h
  unfold usub
  rw [Nat.mod_mod_of_dvd _ hdvd]
  have hbS : b % 2 ^ S ≤ 2 ^ S := Nat.le_of_lt (Nat.mod_lt _ (two_pow_pos S))
  have hbW : b % 2 ^ W ≤ 2 ^ W := Nat.le_of_lt (Nat.mod_lt _ (two_pow_pos W))
  have h1 : a % 2 ^ S + (2 ^ S - b % 2 ^ S) + b % 2 ^ S = a % 2 ^ S + 2 ^ S := by
    omega
  have h2 : a % 2 ^ W + (2 ^ W - b % 2 ^ W) + b % 2 ^ W = a % 2 ^ W + 2 ^ W := by
    omega
  have hc : b % 2 ^ S ≡ b % 2 ^ W [MOD 2 ^ W] :=
    ((Nat.mod_modEq b (2 ^ S)).of_dvd hdvd).trans (Nat.mod_modEq b (2 ^ W)).symm
  have ha : a % 2 ^ S ≡ a % 2 ^ W [MOD 2 ^ W] :=
    ((Nat.mod_modEq a (2 ^ S)).of_dvd hdvd).trans (Nat.mod_modEq a (2 ^ W)).symm
  have hS0 : (2 : Nat) ^ S ≡ 2 ^ W [MOD 2 ^ W] :=
    ((Nat.modEq_zero_iff_dvd).2 hdvd).trans ((Nat.modEq_zero_iff_dvd).2 dvd_rfl).symm
  have hsum : a % 2 ^ S + (2 ^ S - b % 2 ^ S) + b % 2 ^ S ≡
      a % 2 ^ W + (2 ^ W - b % 2 ^ W) + b % 2 ^ W [MOD 2 ^ W] := by
    rw [h1, h2]
    exact ha.add hS0
  exact Nat.ModEq.add_right_cancel hc hsum

/-- The wrap-around difference at width `W`, read as an integer, is the
mathematical difference modulo `2 ^ W`. -/
lemma usub_toInt (W a b : Nat) : (usub W a b : ℤ) = ((a : ℤ) - b) % 2 ^ W := by
  unfold usub
  have hb : b % 2 ^ W ≤ 2 ^ W := Nat.le_of_lt (Nat.mod_lt _ (two_pow_pos W))
  push_cast [hb]
  rw [show ((a : ℤ) % 2 ^ W + (2 ^ W - (b : ℤ) % 2 ^ W) : ℤ)
        = (a : ℤ) % 2 ^ W - (b : ℤ) % 2 ^ W + 2 ^ W by ring]
  rw [Int.add_emod_self, ← Int.sub_emod]

namespace Tsc

/-- Embedding of `Tsc::elapsed` (src/hodea/core/tsc.hpp):
`return (ts_newer - ts_older) & T_time_base::counter_msk;`.
`S` is the bit width of the `Ticks` storage type, `msk` the time base's
`counter_msk`. -/
def elapsed (S msk ts_older ts_newer : Nat) : Nat :=
  usub S ts_newer ts_older &&& msk

/-- Embedding of `Tsc::is_elapsed`:
`return elapsed(ts_start, T_time_base::now()) >= period;`.
The reading delivered by `T_time_base::now()` is the parameter `now`. -/
def is_elapsed (S msk now ts_start period : Nat) : Bool :=
  decide (elapsed S msk ts_start now ≥ period)

/-- Embedding of `Tsc::is_elapsed_repetitive`.  The C++ function takes
`ts_start` by reference; the model returns the Bool result together with the
final value of `ts_start`. -/
def is_elapsed_repetitive (S msk now ts_start period : Nat) : Bool × Nat :=
  if elapsed S msk ts_start now ≥ period then (true, now) else (false, ts_start)

/-- Loop of `Tsc::delay`: busy-poll `is_elapsed(start, period)` with a fresh
`now()` reading each iteration.  `reads` is the stream of time-base readings,
`i` the index of the next reading; the result is the index of the reading at
which the loop exits, or `none` if it does not exit within `fuel` polls. -/
def delay_go (S msk : Nat) (reads : Nat → Nat) (start period : Nat) :
    Nat → Nat → Option Nat
  | 0, _ => none
  | fuel + 1, i =>
    if is_elapsed S msk (reads i) start period then some i
    else delay_go S msk reads start period fuel (i + 1)

/-- Embedding of `Tsc::delay`: `start = now()` is the reading of index `0`,
then the loop polls readings `1, 2, ...`. -/
def delay (S msk : Nat) (reads : Nat → Nat) (period fuel : Nat) : Option Nat :=
  delay_go S msk reads (reads 0) period fuel 1

/-- Embedding of `Tsc::i_us_to_ticks`:
`return (static_cast<uint64_t>(us) * T_time_base::counter_clk_hz) / 1000000;`.
`us` has C++ type `unsigned` (32 bits on the library's Cortex-M targets), the
product is computed in `uint64_t`, and the quotient is converted to the
`Ticks` type of `S` bits on return. -/
def i_us_to_ticks (S f us : Nat) : Nat :=
  ((us % 2 ^ 32) * f % 2 ^ 64 / 1000000) % 2 ^ S

end Tsc

/-- Embedding of `math_round_to<T>` (src/hodea/core/math.hpp):
`return static_cast<T>((x < 0) ? (x - 0.5) : (x + 0.5));` with `double`
modelled by exact rationals; `static_cast` from a floating value to an
integer type truncates toward zero, i.e. ceiling for the negative branch and
floor for the non-negative one. -/
def math_round_to (x : ℚ) : ℤ :=
  if x < 0 then ⌈x - 1 / 2⌉ else ⌊x + 1 / 2⌋

namespace Tsc

/-- Embedding of `Tsc::sec_to_ticks`:
`return math_round_to<Ticks>(T_time_base::counter_clk_hz * sec);`. -/
def sec_to_ticks (counter_clk_hz sec : ℚ) : ℤ :=
  math_round_to (counter_clk_hz * sec)

/-- Embedding of `Tsc::ms_to_ticks`: `return sec_to_ticks(ms * 1e-3);`. -/
def ms_to_ticks (counter_clk_hz ms : ℚ) : ℤ :=
  sec_to_ticks counter_clk_hz (ms * (1 / 1000))

/-- Embedding of `Tsc::us_to_ticks`: `return sec_to_ticks(us * 1e-6);`. -/
def us_to_ticks (counter_clk_hz us : ℚ) : ℤ :=
  sec_to_ticks counter_clk_hz (us * (1 / 1000000))

end Tsc

namespace Tsc_timer

/-- Embedding of `Tsc_timer::elapsed` (src/hodea/core/tsc_timer.hpp):
`return (ts_newer - ts_older) & T_time_base::counter_msk;`. -/
def elapsed (S msk ts_older ts_newer : Nat) : Nat :=
  usub S ts_newer ts_older &&& msk

/-- Embedding of `Tsc_timer::is_elapsed`:
`Ticks now = T_time_base::timestamp(); return elapsed(ts_start, now) >= period;`.
The reading delivered by `T_time_base::timestamp()` is the parameter `now`. -/
def is_elapsed (S msk now ts_start period : Nat) : Bool :=
  decide (elapsed S msk ts_start now ≥ period)

/-- Embedding of `Tsc_timer::is_elapsed_repetitive`; as for `Tsc`, the model
returns the Bool result together with the final value of the by-reference
`ts_start`. -/
def is_elapsed_repetitive (S msk now ts_start period : Nat) : Bool × Nat :=
  if elapsed S msk ts_start now ≥ period then (true, now) else (false, ts_start)

/-- Loop of `Tsc_timer::delay`, modelled exactly as `Tsc.delay_go` with the
readings delivered by `timestamp()`. -/
def delay_go (S msk : Nat) (reads : Nat → Nat) (start period : Nat) :
    Nat → Nat → Option Nat
  | 0, _ => none
  | fuel + 1, i =>
    if is_elapsed S msk (reads i) start period then some i
    else delay_go S msk reads start period fuel (i + 1)

/-- Embedding of `Tsc_timer::delay`: `start = timestamp()` is the reading of
index `0`, then the loop polls readings `1, 2, ...`. -/
def delay (S msk : Nat) (reads : Nat → Nat) (period fuel : Nat) : Option Nat :=
  delay_go S msk reads (reads 0) period fuel 1

end Tsc_timer

/-- State of a `Countdown_timer` (src/hodea/core/countdown_timer.hpp): the
private fields `ts_last` (timestamp of the last reference reading) and
`value` (the single internal unsigned counter, `uint_fast32_t`). -/
structure Countdown_timer where
  ts_last : Nat
  value : Nat
deriving DecidableEq, Repr

namespace Countdown_timer

/-- Embedding of `Countdown_timer::stopped_value = 0`
(src/hodea/core/countdown_timer.hpp). -/
def stopped_value : Nat := 0

/-- Embedding of `Countdown_timer::expired_value = 1`
(src/hodea/core/countdown_timer.hpp). -/
def expired_value : Nat := 1

/-- Modelled from the spec: `Countdown_timer::start` is not present in
src/hodea/core/countdown_timer.hpp (only the fields and the sentinel
constants are).  Spec section 4.2: `start(period_ticks)` sends any state to
running and captures the current tick-source reading as the reference point.
The internal counter uses the sentinel encoding of section 3 (stored `0` is
stopped, stored `1` is expired, a running timer stores its remaining ticks
plus one); `start` stores `period + 2`, so that `start(0)` yields a running,
not yet expired timer, as the spec's edge case requires: expiry after
`start(0)` is detected only by the next `update()`, never retroactively by
`start` itself. -/
def start (_t : Countdown_timer) (now period : Nat) : Countdown_timer :=
  { ts_last := now, value := period + 2 }

/-- Modelled from the spec: `Countdown_timer::stop` is not present in
src/hodea/core/countdown_timer.hpp.  Spec section 4.2: any state goes to
stopped; idempotent.  The stored counter becomes `stopped_value`. -/
def stop (t : Countdown_timer) : Countdown_timer :=
  { t with value := stopped_value }

/-- Modelled from the spec: `Countdown_timer::update` is not present in
src/hodea/core/countdown_timer.hpp.  Spec section 4.2: no-op unless the
state is running; while running, it computes the ticks elapsed since the
last recorded reference reading with the section 4.1 elapsed arithmetic
(the header includes tsc_timer.hpp, whence `Tsc_timer.elapsed`), subtracts
them from the remaining ticks, and transitions to expired as soon as the
remaining ticks would drop to zero or below; otherwise it stays running
with the reduced remaining ticks and the advanced reference reading.  In
the sentinel encoding the remaining ticks of a running timer are
`value - expired_value`. -/
def update (S msk : Nat) (t : Countdown_timer) (now : Nat) : Countdown_timer :=
  if t.value ≤ expired_value then t
  else if t.value - expired_value ≤ Tsc_timer.elapsed S msk t.ts_last now then
    { ts_last := now, value := expired_value }
  else
    { ts_last := now, value := t.value - Tsc_timer.elapsed S msk t.ts_last now }

/-- Modelled from the spec: query `is_stopped()`, a pure test of the
stopped sentinel. -/
def is_stopped (t : Countdown_timer) : Bool :=
  decide (t.value = stopped_value)

/-- Modelled from the spec: query `is_expired()`, a pure test of the
expired sentinel. -/
def is_expired (t : Countdown_timer) : Bool :=
  decide (t.value = expired_value)

/-- Modelled from the spec: query `is_running()`, true exactly when the
stored counter is above both sentinels. -/
def is_running (t : Countdown_timer) : Bool :=
  decide (expired_value < t.value)

/-- Modelled from the spec: query `remaining()`, the ticks left while
running and `0` otherwise; in the sentinel encoding a running timer stores
its remaining ticks plus one. -/
def remaining (t : Countdown_timer) : Nat :=
  if expired_value < t.value then t.value - expired_value else 0

end Countdown_timer

lemma elapsed_self (S msk a : Nat) : Tsc.elapsed S msk a a = 0 := by
  unfold Tsc.elapsed
  rw [usub_self]
  exact Nat.zero_and msk

/-- C1: for every pair of tick values and every counter mask of the form
`2 ^ W - 1` with `W` at most the storage width, `elapsed(older, newer)` is
`(newer - older) & msk` computed in unsigned modular arithmetic, i.e. the
integer difference `newer - older` reduced modulo `2 ^ W`; in particular in
the wraparound case `older = msk`, `newer = 0` the result is `1`. -/
theorem elapsed_eq_mod_counter_width (S W msk older newer : Nat)
    (hW : W ≤ S) (hmsk : msk = 2 ^ W - 1) :
    (Tsc.elapsed S msk older newer : ℤ) = ((newer : ℤ) - older) % 2 ^ W ∧
    (1 ≤ W → Tsc.elapsed S msk msk 0 = 1) := by
  have key : ∀ a b : Nat, (Tsc.elapsed S msk b a : ℤ) = ((a : ℤ) - b) % 2 ^ W := by
    intro a b
    unfold Tsc.elapsed
    rw [hmsk, Nat.and_pow_two_sub_one_eq_mod, usub_mod_pow hW, usub_toInt]
  refine ⟨key newer older, ?_⟩
  intro hW1
  have hlt : (1 : ℤ) < 2 ^ W := by
    calc (1 : ℤ) < 2 ^ 1 := by norm_num
      _ ≤ 2 ^ W := pow_le_pow_right₀ (by norm_num) hW1
  have hone : 1 ≤ 2 ^ W := two_pow_pos W
  have hmsk2 : (msk : ℤ) = 2 ^ W - 1 := by
    rw [hmsk]
    push_cast [hone]
    ring
  have h1 : (Tsc.elapsed S msk msk 0 : ℤ) = ((1 : ℤ) - 2 ^ W) % 2 ^ W := by
    rw [key 0 msk, hmsk2]
    push_cast
    rw [show ((0 : ℤ) - (2 ^ W - 1)) = 1 - 2 ^ W by ring]
  have h2 : ((1 : ℤ) - 2 ^ W) % 2 ^ W = 1 := by
    rw [Int.sub_emod, Int.emod_self]
    norm_num
    exact Int.emod_eq_of_lt (by norm_num) hlt
  have : (Tsc.elapsed S msk msk 0 : ℤ) = 1 := by rw [h1, h2]
  exact_mod_cast this

/-- Witness for C1 at `S = 8`, `W = 4`, `msk = 15`: the wraparound pair
`older = 15`, `newer = 0` yields elapsed `1`. -/
theorem elapsed_eq_mod_counter_width_witness : Tsc.elapsed 8 15 15 0 = 1 :=
  (elapsed_eq_mod_counter_width 8 4 15 15 0 (by decide) (by decide)).2 (by decide)

/-- C10: the result of `elapsed` always lies within the counter's range:
masking it again with `counter_msk` leaves it unchanged (equivalently, it
has no bit outside the mask) and it never exceeds `counter_msk`, regardless
of whether the raw inputs have bits set outside the mask. -/
theorem elapsed_within_counter_mask (S msk older newer : Nat) :
    Tsc.elapsed S msk older newer &&& msk = Tsc.elapsed S msk older newer ∧
    Tsc.elapsed S msk older newer ≤ msk := by
  unfold Tsc.elapsed
  constructor
  · rw [Nat.land_assoc]
    simp
  · exact Nat.and_le_right

/-- C2: `is_elapsed(start, period)` is true exactly when
`elapsed(start, now) >= period` for the current reading `now`; at the
boundary, exactly `period` elapsed ticks give true and `period - 1` elapsed
ticks give false. -/
theorem is_elapsed_iff_period_le_elapsed (S msk now ts_start period : Nat) :
    (Tsc.is_elapsed S msk now ts_start period = true ↔
      period ≤ Tsc.elapsed S msk ts_start now) ∧
    (Tsc.elapsed S msk ts_start now = period →
      Tsc.is_elapsed S msk now ts_start period = true) ∧
    (1 ≤ period → Tsc.elapsed S msk ts_start now = period - 1 →
      Tsc.is_elapsed S msk now ts_start period = false) := by
  refine ⟨by simp [Tsc.is_elapsed], ?_, ?_⟩
  · intro h
    simp [Tsc.is_elapsed, h]
  · intro hp h
    simp only [Tsc.is_elapsed, h, ge_iff_le, decide_eq_false_iff_not]
    omega

/-- Witness for C2 at `S = 8`, `msk = 255`, `now = 7`, `start = 2`:
elapsed is `5`, so a period of `5` is elapsed and a period of `6` is not. -/
theorem is_elapsed_iff_period_le_elapsed_witness :
    Tsc.is_elapsed 8 255 7 2 5 = true ∧ Tsc.is_elapsed 8 255 7 2 6 = false :=
  ⟨(is_elapsed_iff_period_le_elapsed 8 255 7 2 5).2.1 (by decide),
   (is_elapsed_iff_period_le_elapsed 8 255 7 2 6).2.2 (by decide) (by decide)⟩

/-- C3: `is_elapsed_repetitive` writes its by-reference start timestamp only
when it returns true, in which case the start timestamp becomes the current
reading; when it returns false the start timestamp is left unchanged. -/
theorem is_elapsed_repetitive_frame (S msk now ts_start period : Nat) :
    ((Tsc.is_elapsed_repetitive S msk now ts_start period).1 = true →
      (Tsc.is_elapsed_repetitive S msk now ts_start period).2 = now) ∧
    ((Tsc.is_elapsed_repetitive S msk now ts_start period).1 = false →
      (Tsc.is_elapsed_repetitive S msk now ts_start period).2 = ts_start) := by
  unfold Tsc.is_elapsed_repetitive
  split <;> simp

/-- Witness for C3: a returning-true call at `S = 8`, `msk = 255`,
`now = 7`, `start = 2`, `period = 5` sets the start timestamp to `7`. -/
theorem is_elapsed_repetitive_frame_witness :
    (Tsc.is_elapsed_repetitive 8 255 7 2 5).2 = 7 :=
  (is_elapsed_repetitive_frame 8 255 7 2 5).1 (by decide)

/-- Counterexample to C4 as stated: with `period = 0` a call that returned
true is immediately followed, with the reading unchanged, by another true
result, because zero elapsed ticks already reach a zero period. -/
theorem is_elapsed_repetitive_zero_period_retriggers :
    (Tsc.is_elapsed_repetitive 8 255 5 5 0).1 = true ∧
    (Tsc.is_elapsed_repetitive 8 255 5
      (Tsc.is_elapsed_repetitive 8 255 5 5 0).2 0).1 = true := by
  decide

/-- C4 (amended): for every nonzero period, after `is_elapsed_repetitive`
returns true, calling it twice more with the tick source's reading unchanged
returns false both times. -/
theorem is_elapsed_repetitive_nonzero_idempotent (S msk now ts_start period : Nat)
    (hp : 1 ≤ period)
    (h1 : (Tsc.is_elapsed_repetitive S msk now ts_start period).1 = true) :
    (Tsc.is_elapsed_repetitive S msk now
        (Tsc.is_elapsed_repetitive S msk now ts_start period).2 period).1 = false ∧
    (Tsc.is_elapsed_repetitive S msk now
        (Tsc.is_elapsed_repetitive S msk now
          (Tsc.is_elapsed_repetitive S msk now ts_start period).2 period).2
        period).1 = false := by
  have hkey : Tsc.is_elapsed_repetitive S msk now now period = (false, now) := by
    unfold Tsc.is_elapsed_repetitive
    rw [elapsed_self, if_neg (by omega)]
  have hst : (Tsc.is_elapsed_repetitive S msk now ts_start period).2 = now := by
    by_cases hc : Tsc.elapsed S msk ts_start now ≥ period
    · simp [Tsc.is_elapsed_repetitive, hc]
    · simp [Tsc.is_elapsed_repetitive, hc] at h1
  simp [hst, hkey]

/-- Witness for C4 (amended) at `S = 8`, `msk = 255`, `period = 1`: the
first call at reading `6` from start `5` fires, the two further calls at the
unchanged reading do not. -/
theorem is_elapsed_repetitive_nonzero_idempotent_witness :
    (Tsc.is_elapsed_repetitive 8 255 6
        (Tsc.is_elapsed_repetitive 8 255 6 5 1).2 1).1 = false ∧
    (Tsc.is_elapsed_repetitive 8 255 6
        (Tsc.is_elapsed_repetitive 8 255 6
          (Tsc.is_elapsed_repetitive 8 255 6 5 1).2 1).2 1).1 = false :=
  is_elapsed_repetitive_nonzero_idempotent 8 255 6 5 1 (by decide) (by decide)

/-- C5 (countdown operations modelled from the spec): `start(0)` followed
immediately by `is_expired()` gives false; after one `update()` during
which the tick source advanced by a nonzero number of ticks, `is_expired()`
gives true. -/
theorem countdown_start_zero_expiry (S msk now0 now1 : Nat) (t : Countdown_timer)
    (he : 1 ≤ Tsc_timer.elapsed S msk now0 now1) :
    (t.start now0 0).is_expired = false ∧
    ((t.start now0 0).update S msk now1).is_expired = true := by
  constructor
  · simp [Countdown_timer.start, Countdown_timer.is_expired,
      Countdown_timer.expired_value]
  · unfold Countdown_timer.start Countdown_timer.update
    rw [if_neg (by simp [Countdown_timer.expired_value])]
    rw [if_pos (by simpa [Countdown_timer.expired_value] using he)]
    simp [Countdown_timer.is_expired]

/-- Witness for C5 at `S = 8`, `msk = 255`, readings `5` then `6` (one tick
elapsed), from an arbitrary initial timer state. -/
theorem countdown_start_zero_expiry_witness :
    ((⟨0, 0⟩ : Countdown_timer).start 5 0).is_expired = false ∧
    (((⟨0, 0⟩ : Countdown_timer).start 5 0).update 8 255 6).is_expired = true :=
  countdown_start_zero_expiry 8 255 5 6 ⟨0, 0⟩ (by decide)

/-- C6 (countdown operations modelled from the spec): the single internal
unsigned counter encodes the three logical states through the reserved
sentinels of src/hodea/core/countdown_timer.hpp — stored `0` is stopped,
stored `1` is expired, and a running timer with `N >= 1` ticks remaining
stores `N + 1` — and `start`, `stop`, `update` and the queries respect this
encoding: `start` yields a running state, `stop` a stopped one, `update`
fixes stopped and expired states and sends a running state to running or
expired. -/
theorem countdown_sentinel_encoding (S msk now period : Nat) (t : Countdown_timer) :
    Countdown_timer.stopped_value = 0 ∧
    Countdown_timer.expired_value = 1 ∧
    (t.is_stopped = true ↔ t.value = 0) ∧
    (t.is_expired = true ↔ t.value = 1) ∧
    (t.is_running = true ↔ ∃ N, 1 ≤ N ∧ t.value = N + 1) ∧
    (t.is_running = true → t.value = t.remaining + 1 ∧ 1 ≤ t.remaining) ∧
    (t.start now period).is_running = true ∧
    t.stop.is_stopped = true ∧
    (t.is_stopped = true → t.update S msk now = t) ∧
    (t.is_expired = true → t.update S msk now = t) ∧
    (t.is_running = true →
      (t.update S msk now).is_running = true ∨
        (t.update S msk now).is_expired = true) := by
  refine ⟨rfl, rfl, ?_, ?_, ?_, ?_, ?_, ?_, ?_, ?_, ?_⟩
  · simp [Countdown_timer.is_stopped, Countdown_timer.stopped_value]
  · simp [Countdown_timer.is_expired, Countdown_timer.expired_value]
  · constructor
    · intro h
      refine ⟨t.value - 1, ?_, ?_⟩ <;>
        simp [Countdown_timer.is_running, Countdown_timer.expired_value] at h <;>
        omega
    · intro ⟨N, hN, hv⟩
      simp [Countdown_timer.is_running, Countdown_timer.expired_value]
      omega
  · intro h
    simp [Countdown_timer.is_running, Countdown_timer.expired_value] at h
    unfold Countdown_timer.remaining Countdown_timer.expired_value
    rw [if_pos (by omega)]
    omega
  · simp [Countdown_timer.start, Countdown_timer.is_running,
      Countdown_timer.expired_value]
  · simp [Countdown_timer.stop, Countdown_timer.is_stopped]
  · intro h
    simp [Countdown_timer.is_stopped, Countdown_timer.stopped_value] at h
    unfold Countdown_timer.update
    rw [if_pos (by simp [Countdown_timer.expired_value, h])]
  · intro h
    simp [Countdown_timer.is_expired, Countdown_timer.expired_value] at h
    unfold Countdown_timer.update
    rw [if_pos (by simp [Countdown_timer.expired_value, h])]
  · intro h
    simp [Countdown_timer.is_running, Countdown_timer.expired_value] at h
    unfold Countdown_timer.update
    rw [if_neg (by simp [Countdown_timer.expired_value]; omega)]
    by_cases hc :
        t.value - Countdown_timer.expired_value ≤ Tsc_timer.elapsed S msk t.ts_last now
    · rw [if_pos hc]
      right
      simp [Countdown_timer.is_expired]
    · rw [if_neg hc]
      left
      simp [Countdown_timer.is_running, Countdown_timer.expired_value] at hc ⊢
      omega

/-- Witness for C6: the running-state clause of the encoding theorem at a
concrete running timer, which the concrete `update` sends to expired. -/
theorem countdown_sentinel_encoding_witness :
    ((⟨0, 5⟩ : Countdown_timer).update 8 255 7).is_running = true ∨
      ((⟨0, 5⟩ : Countdown_timer).update 8 255 7).is_expired = true :=
  (countdown_sentinel_encoding 8 255 7 3 ⟨0, 5⟩).2.2.2.2.2.2.2.2.2.2 (by decide)

/-- Counterexample to C7 as stated: the quotient is converted to the
`Ticks` type on return, so with a 32-bit `Ticks`, `us = 1000000` and a
counter clock of `2 ^ 32` Hz — a product well inside 64 bits — the function
returns `0` although the exact truncated value is `2 ^ 32`. -/
theorem i_us_to_ticks_narrowing_counterexample :
    Tsc.i_us_to_ticks 32 (2 ^ 32) 1000000 = 0 ∧
    1000000 * 2 ^ 32 < 2 ^ 64 ∧
    1000000 * 2 ^ 32 / 1000000 = 2 ^ 32 ∧
    (2 ^ 32 : Nat) ≠ 0 := by
  refine ⟨by decide, by norm_num, by norm_num, by norm_num⟩

/-- C7 (amended): for every `us` (an `unsigned`, hence below `2 ^ 32`) and
frequency whose product fits in 64 bits, and whose truncated quotient also
fits in the `Ticks` storage width `S`, `i_us_to_ticks` returns exactly
`us * counter_clk_hz / 1000000` truncated toward zero (floor division). -/
theorem i_us_to_ticks_exact (S f us : Nat) (hus : us < 2 ^ 32)
    (hprod : us * f < 2 ^ 64) (hq : us * f / 1000000 < 2 ^ S) :
    Tsc.i_us_to_ticks S f us = us * f / 1000000 := by
  unfold Tsc.i_us_to_ticks
  rw [Nat.mod_eq_of_lt hus, Nat.mod_eq_of_lt hprod, Nat.mod_eq_of_lt hq]

/-- Witness for C7 (amended) at `S = 32`, frequency `1000000` Hz,
`us = 5`. -/
theorem i_us_to_ticks_exact_witness :
    Tsc.i_us_to_ticks 32 1000000 5 = 5 * 1000000 / 1000000 :=
  i_us_to_ticks_exact 32 1000000 5 (by norm_num) (by norm_num) (by norm_num)

/-- C8: `sec_to_ticks` rounds `counter_clk_hz * sec` with `math_round_to`,
which is exactly rounding half away from zero (floor of `x + 1/2` for
nonnegative `x`, the mirrored form for negative `x`); the representative
inputs `1.5`, `-1.5` and `0.49999` round to `2`, `-2` and `0`; and
`ms_to_ticks` and `us_to_ticks` are the scaled calls with factors `1e-3`
and `1e-6`. -/
theorem sec_to_ticks_round_half_away :
    (∀ f s : ℚ, Tsc.sec_to_ticks f s = math_round_to (f * s)) ∧
    (∀ f ms : ℚ, Tsc.ms_to_ticks f ms = Tsc.sec_to_ticks f (ms * (1 / 1000))) ∧
    (∀ f us : ℚ, Tsc.us_to_ticks f us = Tsc.sec_to_ticks f (us * (1 / 1000000))) ∧
    math_round_to (3 / 2) = 2 ∧
    math_round_to (-(3 / 2)) = -2 ∧
    math_round_to (49999 / 100000) = 0 ∧
    (∀ x : ℚ, 0 ≤ x → math_round_to x = ⌊x + 1 / 2⌋) ∧
    (∀ x : ℚ, x < 0 → math_round_to x = -⌊-x + 1 / 2⌋) := by
  refine ⟨fun _ _ => rfl, fun _ _ => rfl, fun _ _ => rfl, ?_, ?_, ?_, ?_, ?_⟩
  · norm_num [math_round_to]
  · rw [math_round_to, if_pos (by norm_num)]
    rw [show (-(3 / 2) - 1 / 2 : ℚ) = ((-2 : ℤ) : ℚ) by norm_num]
    exact Int.ceil_intCast _
  · norm_num [math_round_to]
  · intro x hx
    rw [math_round_to, if_neg (not_lt.2 hx)]
  · intro x hx
    rw [math_round_to, if_pos hx,
      show x - 1 / 2 = -(-x + 1 / 2) by ring, Int.ceil_neg]

/-- Witness for C8: the half-away-from-zero characterization applied at the
concrete points `2` and `-2`. -/
theorem sec_to_ticks_round_half_away_witness :
    math_round_to 2 = ⌊(2 : ℚ) + 1 / 2⌋ ∧
    math_round_to (-2) = -⌊-(-2 : ℚ) + 1 / 2⌋ :=
  ⟨sec_to_ticks_round_half_away.2.2.2.2.2.2.1 2 (by norm_num),
   sec_to_ticks_round_half_away.2.2.2.2.2.2.2 (-2) (by norm_num)⟩

lemma delay_go_eq (S msk : Nat) (reads : Nat → Nat) (start period : Nat) :
    ∀ fuel i, Tsc.delay_go S msk reads start period fuel i
      = Tsc_timer.delay_go S msk reads start period fuel i := by
  intro fuel
  induction fuel with
  | zero => intro i; rfl
  | succ n ih =>
    intro i
    unfold Tsc.delay_go Tsc_timer.delay_go
    rw [ih]
    rfl

/-- C9: the two historical variants `Tsc` (reading the time base through
`now()`) and `Tsc_timer` (reading it through `timestamp()`) are
semantically equivalent: with time bases whose readings agree, `elapsed`,
`is_elapsed`, `is_elapsed_repetitive` and `delay` return equal results and
perform equal state updates on every input. -/
theorem tsc_variants_equivalent :
    (∀ S msk a b, Tsc.elapsed S msk a b = Tsc_timer.elapsed S msk a b) ∧
    (∀ S msk now st p,
      Tsc.is_elapsed S msk now st p = Tsc_timer.is_elapsed S msk now st p) ∧
    (∀ S msk now st p,
      Tsc.is_elapsed_repetitive S msk now st p
        = Tsc_timer.is_elapsed_repetitive S msk now st p) ∧
    (∀ S msk reads p fuel,
      Tsc.delay S msk reads p fuel = Tsc_timer.delay S msk reads p fuel) :=
  ⟨fun _ _ _ _ => rfl, fun _ _ _ _ _ => rfl, fun _ _ _ _ _ => rfl,
   fun S msk reads p fuel => delay_go_eq S msk reads (reads 0) p fuel 1⟩
